import Mathlib

/-
Verification of the distributed task-coordination layer of
aws-spot-price-comparison (src/redis_cache.py, src/api.py).

The Redis client is created with decode_responses=True (redis_cache.py line 90),
so every reply from the store is already a Python str.  Several methods then call
.decode() on those str values; in Python 3 a str has no decode method, so the call
raises AttributeError.  The embedding models this faithfully: strDecode and
decodeHash below always fail on the inputs those call sites receive.

Timestamps: the source stores datetime.now(timezone.utc).isoformat() strings and
parses them back with datetime.fromisoformat; isoformat round-trips, so the
embedding carries timestamps as integers (seconds).  Redis hash values are
strings; the priority field is therefore stored as the string rendering of the
integer priority (redis-py serialises the int, hgetall returns the string).

Key TTLs (expire / ex=) are modelled only in the generic string store KV used by
the leader-lease claim, where expiry is load-bearing; no task-record claim
depends on record expiry, so CacheState omits record TTLs.
-/

/-- Python truthiness of an Optional string: None and the empty string are falsy
(redis_cache.py lines 162 and 166 use `if not task_id`). -/
def pyTruthy : Option String → Bool
  | none => false
  | some v => v != ""

/-- Message of the AttributeError raised when .decode() is called on a str. -/
def attrErrMsg : String := "AttributeError: str object has no attribute decode"

/-- Model of `value.decode()` where value is already a str because the client was
created with decode_responses=True: always raises AttributeError. -/
def strDecode (_v : String) : Except String String :=
  Except.error attrErrMsg

/-- Python `==` between an int and a str is always False, with no error.  Used at
redis_cache.py line 222 where the int TaskPriority.HIGH is compared against the
string field read back from the Redis hash. -/
def pyIntEqStr (_n : Nat) (_v : String) : Bool := false

/-- Priority constants (redis_cache.py lines 56-59). -/
def TaskPriority.HIGH : Nat := 100

def TaskPriority.MEDIUM : Nat := 50

def TaskPriority.LOW : Nat := 10

/-- Status constants (redis_cache.py lines 61-66). -/
def TaskStatus.QUEUED : String := "queued"

def TaskStatus.PROCESSING : String := "processing"

def TaskStatus.COMPLETED : String := "completed"

def TaskStatus.FAILED : String := "failed"

def TaskStatus.PENDING : String := "pending"

/-- A task record: the Redis hash stored under task:<id>.  Fields are optional
since hset writes only the fields of the given mapping. -/
structure TaskRec where
  ttype : Option String := none
  status : Option String := none
  data : Option String := none
  created_at : Option Int := none
  priority : Option String := none
  result_key : Option String := none
  error : Option String := none
  completed_at : Option Int := none
deriving DecidableEq

/-- Model of the dict comprehension `(k.decode(): v.decode() for k, v in h.items())`
applied to an hgetall reply (lines 179, 212, 298): with decode_responses=True the
keys are str, so the first entry raises AttributeError; the comprehension over an
empty reply yields an empty dict without calling decode. -/
def decodeHash (r : TaskRec) : Except String TaskRec :=
  if r = {} then Except.ok r else Except.error attrErrMsg

/-- Association-list lookup (leftmost binding wins). -/
def alistGet {α : Type} (l : List (String × α)) (k : String) : Option α :=
  match l with
  | [] => none
  | (k2, v) :: rest => if k2 = k then some v else alistGet rest k

/-- Association-list update: canonical form with the new binding in front and all
older bindings for the key removed. -/
def alistUpd {α : Type} (l : List (String × α)) (k : String) (v : α) :
    List (String × α) :=
  (k, v) :: l.filter (fun kv => kv.1 != k)

/-- The observable Redis state used by the task layer.
tasks: hash records stored under the task: namespace, keyed by the plain id.
strings: string-typed keys (result:<id> results; complete_task would write a
task:<id> string here).  processing_tasks: the set touched by srem.
high and low: the lists tasks:high and tasks:low, head = leftmost element,
so lpush conses at the head and rpop removes the last element. -/
structure CacheState where
  tasks : List (String × TaskRec) := []
  strings : List (String × String) := []
  processing_tasks : List String := []
  high : List String := []
  low : List String := []
deriving DecidableEq

def emptyCache : CacheState := {}

/-- Task id generation (redis_cache.py lines 128-130): type, timestamp and a
random suffix; the timestamp and suffix are parameters of the embedding. -/
def mkTaskId (task_type : String) (now : Int) (suffix : String) : String :=
  task_type ++ "_" ++ toString now ++ "_" ++ suffix

/-- enqueue_task (redis_cache.py lines 124-155): store the record as a hash
(hset merges into any existing hash under the same key) and lpush the id onto
tasks:high when priority == TaskPriority.HIGH, else onto tasks:low. -/
def enqueue_task (s : CacheState) (task_type task_data : String) (priority : Nat)
    (now : Int) (suffix : String) : String × CacheState :=
  let task_id := mkTaskId task_type now suffix
  let base := (alistGet s.tasks task_id).getD {}
  let rec0 : TaskRec :=
    { base with
      ttype := some task_type
      status := some TaskStatus.PENDING
      data := some task_data
      created_at := some now
      priority := some (toString priority) }
  let s1 := { s with tasks := alistUpd s.tasks task_id rec0 }
  if priority = TaskPriority.HIGH then
    (task_id, { s1 with high := task_id :: s1.high })
  else
    (task_id, { s1 with low := task_id :: s1.low })

/-- Lines 160-167 of get_next_task: rpop tasks:high; if the reply is falsy,
rpop tasks:low as well.  Both pops remove the element even when the reply is
later discarded. -/
def popNextId (s : CacheState) : Option String × CacheState :=
  let t1 := s.high.getLast?
  let s1 : CacheState := { s with high := s.high.dropLast }
  if pyTruthy t1 then (t1, s1)
  else (s1.low.getLast?, { s1 with low := s1.low.dropLast })

/-- Lines 170-193 of get_next_task, reached only after task_id.decode()
succeeded (it never does): load the hash, decode it (raises again, caught by the
handler at line 195), parse the data field in place and mark the task
PROCESSING.  The decoded data field is represented by the stored record. -/
def getNextLoaded (s : CacheState) (task_id : String) :
    Option (TaskRec × String) × CacheState :=
  let r := (alistGet s.tasks task_id).getD {}
  if r = {} then (none, s)
  else
    match decodeHash r with
    | Except.error _ => (none, s)
    | Except.ok task =>
      let marked := { task with status := some TaskStatus.PROCESSING }
      (some (task, task_id),
       { s with tasks := alistUpd s.tasks task_id marked })

/-- get_next_task (redis_cache.py lines 157-197): pop with strict priority, then
call .decode() on the popped str id (line 169).  The AttributeError is caught by
the handler at lines 195-197, which returns None; the popped id stays removed. -/
def get_next_task (s : CacheState) : Option (TaskRec × String) × CacheState :=
  let p := popNextId s
  if pyTruthy p.1 then
    match strDecode (p.1.getD "") with
    | Except.error _ => (none, p.2)
    | Except.ok task_id => getNextLoaded p.2 task_id
  else (none, p.2)

/-- Lines 225-227 of requeue_stale_tasks: hset status back to pending on the
stored hash and lpush the id onto the selected lane. -/
def requeueApply (s : CacheState) (key task_id : String) (highLane : Bool) :
    CacheState :=
  let base := (alistGet s.tasks key).getD {}
  let pend := { base with status := some TaskStatus.PENDING }
  let s1 := { s with tasks := alistUpd s.tasks key pend }
  if highLane then { s1 with high := task_id :: s1.high }
  else { s1 with low := task_id :: s1.low }

/-- The scan loop of requeue_stale_tasks (redis_cache.py lines 206-231).  Empty
replies are skipped (line 208); a non-empty hash hits the decode comprehension at
line 212, which raises AttributeError.  The remaining lines (215-228) are
translated behind that failure: status check, age measured from created_at
(line 216-217), threshold 300 seconds (line 220), task_key.decode() (line 221,
raising again), and the priority comparison at line 222, where the string field
read back from the hash is compared with the int TaskPriority.HIGH. -/
def requeueLoop (now : Int) :
    List (String × TaskRec) → CacheState → Nat → Except String (Nat × CacheState)
  | [], s, count => Except.ok (count, s)
  | (key, r) :: rest, s, count =>
    if r = {} then requeueLoop now rest s count
    else
      match decodeHash r with
      | Except.error m => Except.error m
      | Except.ok task =>
        if task.status = some TaskStatus.PROCESSING then
          match task.created_at with
          | none => Except.error "KeyError: created_at"
          | some c =>
            if now - c > 300 then
              match strDecode ("task:" ++ key) with
              | Except.error m => Except.error m
              | Except.ok full_key =>
                let task_id := (full_key.splitOn ":").getD 1 ""
                let highLane :=
                  match task.priority with
                  | some p => pyIntEqStr TaskPriority.HIGH p
                  | none => TaskPriority.LOW == TaskPriority.HIGH
                requeueLoop now rest (requeueApply s key task_id highLane)
                  (count + 1)
            else requeueLoop now rest s count
        else requeueLoop now rest s count

/-- requeue_stale_tasks (redis_cache.py lines 199-236): run the scan loop; any
raised error is caught by the handler at lines 234-236, which returns 0 with the
store left as it was at the time of the error. -/
def requeue_stale_tasks (s : CacheState) (now : Int) : Nat × CacheState :=
  match requeueLoop now s.tasks s 0 with
  | Except.ok r => r
  | Except.error _ => (0, s)

/-- set_task_result (redis_cache.py lines 238-263): store the serialised result
under result:<id> and merge status, result_key and completed_at into the task
hash.  The result parameter is the JSON rendering of the result dict
(json.dumps is deterministic). -/
def set_task_result (s : CacheState) (task_id result : String) (now : Int) :
    CacheState :=
  let result_key := "result:" ++ task_id
  let s1 := { s with strings := alistUpd s.strings result_key result }
  let base := (alistGet s1.tasks task_id).getD {}
  let done :=
    { base with
      status := some TaskStatus.COMPLETED
      result_key := some result_key
      completed_at := some now }
  { s1 with tasks := alistUpd s1.tasks task_id done }

/-- set_task_error (redis_cache.py lines 265-282): merge status, error and
completed_at into the task hash. -/
def set_task_error (s : CacheState) (task_id err : String) (now : Int) :
    CacheState :=
  let base := (alistGet s.tasks task_id).getD {}
  let failed :=
    { base with
      status := some TaskStatus.FAILED
      error := some err
      completed_at := some now }
  { s with tasks := alistUpd s.tasks task_id failed }

/-- Outcome of wait_for_task_result: a returned result, a raised exception with
its message (the handler at lines 320-322 logs and re-raises), or the
TimeoutError raised at line 318. -/
inductive WaitOutcome
  | result (json : String)
  | pyError (msg : String)
  | timedOut
deriving DecidableEq

/-- Lines 299-316 of wait_for_task_result, reached only if the decode at line
298 succeeded: dispatch on the status field, fetch the stored result for a
completed task, raise the stored error for a failed one, otherwise keep
polling. -/
def waitDecoded (s : CacheState) (task : TaskRec) : Option WaitOutcome :=
  let status := task.status.getD ""
  if status = TaskStatus.COMPLETED then
    match task.result_key with
    | none => some (WaitOutcome.pyError "Task completed but result key missing")
    | some rk =>
      match alistGet s.strings rk with
      | some result_json => some (WaitOutcome.result result_json)
      | none => some (WaitOutcome.pyError "Task result not found")
  else if status = TaskStatus.FAILED then
    some (WaitOutcome.pyError (task.error.getD "Unknown error"))
  else none

/-- One iteration of the wait loop (lines 290-316).  None means: sleep 0.1s and
poll again.  An empty hgetall reply keeps polling (lines 293-295); a non-empty
reply hits the decode comprehension at line 298, whose AttributeError is
re-raised by the handler. -/
def waitPoll (s : CacheState) (task_id : String) : Option WaitOutcome :=
  let r := (alistGet s.tasks task_id).getD {}
  if r = {} then none
  else
    match decodeHash r with
    | Except.error m => some (WaitOutcome.pyError m)
    | Except.ok task => waitDecoded s task

/-- wait_for_task_result (redis_cache.py lines 284-322) with the timeout given
as the number of 0.1s polls remaining before the deadline.  When the budget is
exhausted the TimeoutError of line 318 propagates. -/
def wait_for_task_result (s : CacheState) (task_id : String) :
    Nat → WaitOutcome
  | 0 => WaitOutcome.timedOut
  | fuel + 1 =>
    match waitPoll s task_id with
    | some outcome => outcome
    | none => wait_for_task_result s task_id fuel

/-- Model of `self.client.get(f"task:...")` (lines 330-333, 360-363, 387-390):
a string GET on a key holding a hash raises ResponseError WRONGTYPE, which
_retry_operation re-raises (lines 117-119); on a string-typed or absent key it
returns the value or None.  The tasks map holds exactly the hash-typed task
keys. -/
def clientGetTaskKey (s : CacheState) (task_id : String) :
    Except String (Option String) :=
  if (alistGet s.tasks task_id).isSome then Except.error "WRONGTYPE"
  else Except.ok (alistGet s.strings ("task:" ++ task_id))

/-- get_task_status (redis_cache.py lines 384-394): string GET of task:<id>;
the WRONGTYPE error is caught and turned into None; a missing key is None; a
string value would be parsed as JSON (kept as the raw record string here). -/
def get_task_status (s : CacheState) (task_id : String) : Option String :=
  match clientGetTaskKey s task_id with
  | Except.error _ => none
  | Except.ok none => none
  | Except.ok (some record) => some record

/-- Serialisation of the updated record written back by complete_task and
fail_task (lines 338-344, 368-374); a concrete rendering of json.dumps of the
parsed record with the updated fields.  Unreachable for any state produced by
the operations of this layer: they never store a string under a task key. -/
def jsonMarkTask (record status extra : String) (now : Int) : String :=
  record ++ "|status=" ++ status ++ "|" ++ extra ++ "|updated_at=" ++ toString now

/-- complete_task (redis_cache.py lines 324-352): string GET of the task key;
WRONGTYPE propagates out of _retry_operation and the handler returns False with
nothing written; a missing record returns False; a string record is rewritten
with status completed and the id is removed from processing_tasks. -/
def complete_task (s : CacheState) (task_id result : String) (now : Int) :
    Bool × CacheState :=
  match clientGetTaskKey s task_id with
  | Except.error _ => (false, s)
  | Except.ok none => (false, s)
  | Except.ok (some record) =>
    (true,
     { s with
       strings := alistUpd s.strings ("task:" ++ task_id)
         (jsonMarkTask record TaskStatus.COMPLETED ("result=" ++ result) now)
       processing_tasks := s.processing_tasks.filter (fun x => x != task_id) })

/-- fail_task (redis_cache.py lines 354-382): same shape as complete_task with
status failed and the error message stored. -/
def fail_task (s : CacheState) (task_id err : String) (now : Int) :
    Bool × CacheState :=
  match clientGetTaskKey s task_id with
  | Except.error _ => (false, s)
  | Except.ok none => (false, s)
  | Except.ok (some record) =>
    (true,
     { s with
       strings := alistUpd s.strings ("task:" ++ task_id)
         (jsonMarkTask record TaskStatus.FAILED ("error=" ++ err) now)
       processing_tasks := s.processing_tasks.filter (fun x => x != task_id) })

/-- Status of a task as stored in its hash. -/
def statusOf (s : CacheState) (task_id : String) : Option String :=
  (alistGet s.tasks task_id).bind (fun r => r.status)

/-- Number of occurrences of an id across both queue lanes. -/
def laneCount (s : CacheState) (task_id : String) : Nat :=
  s.high.count task_id + s.low.count task_id

/-- The ids removed from the lanes by k successive get_next_task calls (each
call itself returns None; popNextId is the pop performed inside it). -/
def drainIds : Nat → CacheState → List String
  | 0, _ => []
  | k + 1, s =>
    match (popNextId s).1 with
    | none => []
    | some tid => tid :: drainIds k (get_next_task s).2

/-- The five queue-layer operations of the status-transition claim. -/
inductive Op
  | enq (task_type task_data : String) (priority : Nat) (suffix : String)
  | getNext
  | setResult (task_id result : String)
  | setError (task_id err : String)
  | requeue

/-- Apply one operation at the given time. -/
def applyOp (s : CacheState) (now : Int) : Op → CacheState
  | Op.enq t d p suf => (enqueue_task s t d p now suf).2
  | Op.getNext => (get_next_task s).2
  | Op.setResult id r => set_task_result s id r now
  | Op.setError id e => set_task_error s id e now
  | Op.requeue => (requeue_stale_tasks s now).2

/-- Generic string store with per-key absolute expiry deadlines, for the keys
written through RedisCache.set. -/
structure KV where
  entries : List (String × String × Option Int) := []
deriving DecidableEq

/-- GET against the expiring store: an entry past its deadline is absent. -/
def kvGet (kv : KV) (key : String) (now : Int) : Option String :=
  match alistGet kv.entries key with
  | none => none
  | some (v, none) => some v
  | some (v, some deadline) => if now < deadline then some v else none

/-- RedisCache.set (redis_cache.py lines 454-466): SET with optional expiry and
NX flag.  With nx, Redis writes only if the key is absent (an expired key counts
as absent) and reports failure otherwise; a plain SET overwrites and resets the
expiry. -/
def RedisCache.set (kv : KV) (key value : String) (ex : Option Int) (nx : Bool)
    (now : Int) : Bool × KV :=
  if nx && (kvGet kv key now).isSome then (false, kv)
  else
    let entry := (value, ex.map (fun ttl => now + ttl))
    (true, { entries := alistUpd kv.entries key entry })

/-- Modelled from the spec: tryAcquireOrRenew (spec section 4.5) is absent from
src/ — api.py is_primary_worker (lines 92-103) selects a leader by worker
number without touching Redis, and only the store primitive RedisCache.set
(nx, ex) exists.  Following the words of the spec: attempt an atomic set-if-
absent with expiry; if that fails because the key is held, read the holder and,
if it equals selfId, renew the expiry and report success, else report failure. -/
def tryAcquireOrRenew (kv : KV) (leaseName selfId : String) (ttl now : Int) :
    Bool × KV :=
  let attempt := RedisCache.set kv leaseName selfId (some ttl) true now
  if attempt.1 then attempt
  else
    match kvGet attempt.2 leaseName now with
    | some holder =>
      if holder = selfId then
        let renewed := RedisCache.set attempt.2 leaseName selfId (some ttl)
          false now
        (true, renewed.2)
      else (false, attempt.2)
    | none => (false, attempt.2)

/-- Scenario state for the strict-priority witness: five LOW ids enqueued, then
one HIGH id (lanes hold newest at the head, as lpush leaves them). -/
def c1State : CacheState :=
  { high := ["h1"], low := ["l5", "l4", "l3", "l2", "l1"] }

/-- Scenario state for the stale-sweep evaluation: one task stuck in
PROCESSING whose record was created 400 seconds before the sweep (the record
has no processing-start field; TaskRec has no such field to store). -/
def c3State : CacheState :=
  { tasks := [("t1",
      { ttype := some "get_best_price"
        status := some TaskStatus.PROCESSING
        data := some "d"
        created_at := some 100
        priority := some "10" })] }

/-- Scenario state for the wait-loop evaluation: a COMPLETED task with its
result stored under result:t1. -/
def c6Completed : CacheState :=
  { tasks := [("t1",
      { ttype := some "get_best_price"
        status := some TaskStatus.COMPLETED
        data := some "d"
        created_at := some 0
        priority := some "100"
        result_key := some "result:t1"
        completed_at := some 5 })]
    strings := [("result:t1", "42")] }

/-- Scenario state for the wait-loop evaluation: a FAILED task with a stored
error message. -/
def c6Failed : CacheState :=
  { tasks := [("t2",
      { ttype := some "get_best_price"
        status := some TaskStatus.FAILED
        data := some "d"
        created_at := some 0
        priority := some "100"
        error := some "boom"
        completed_at := some 5 })] }

/-- Scenario state for the swallowed-dequeue witness. -/
def c9State : CacheState := { high := ["a"], low := ["b"] }

/-- Scenario state for the FIFO witness: ids l1 then l2 enqueued into the low
lane (lpush leaves the newest at the head). -/
def c4State : CacheState := { low := ["l2", "l1"] }

/-- Scenario state for the FIFO witness, high-lane instance: ids l1 then l2
enqueued into the high lane. -/
def c4HighState : CacheState := { high := ["l2", "l1"] }

/-- Scenario state for the hash-typed-record witness: one task enqueued with
HIGH priority at time 0 with suffix ab. -/
def c10State : CacheState :=
  (enqueue_task emptyCache "get_best_price" "d" 100 0 "ab").2

/-- Empty lease store. -/
def kv0 : KV := {}

theorem alistGet_upd_self {α : Type} (l : List (String × α)) (k : String)
    (v : α) : alistGet (alistUpd l k v) k = some v := by
  simp [alistUpd, alistGet]

theorem alistGet_filter_ne {α : Type} (l : List (String × α)) (k k2 : String)
    (h : k2 ≠ k) :
    alistGet (l.filter (fun kv => kv.1 != k)) k2 = alistGet l k2 := by
  induction l with
  | nil => rfl
  | cons a rest ih =>
    obtain ⟨ka, va⟩ := a
    by_cases hk : ka = k
    · subst hk
      have hne : ka ≠ k2 := fun he => h he.symm
      simp [List.filter_cons, alistGet, hne, ih]
    · have hkeep : ((ka, va).1 != k) = true := by simp [bne_iff_ne, hk]
      rw [List.filter_cons, hkeep]
      by_cases hk2 : ka = k2
      · simp [alistGet, hk2]
      · simp [alistGet, hk2, ih]

theorem alistGet_upd_ne {α : Type} (l : List (String × α)) (k k2 : String)
    (v : α) (h : k2 ≠ k) : alistGet (alistUpd l k v) k2 = alistGet l k2 := by
  have hne : k ≠ k2 := fun he => h he.symm
  simp [alistUpd, alistGet, hne, alistGet_filter_ne l k k2 h]

theorem filter_idem {α : Type} (p : α → Bool) (l : List α) :
    (l.filter p).filter p = l.filter p := by
  induction l with
  | nil => rfl
  | cons a rest ih =>
    by_cases ha : p a = true
    · simp [List.filter_cons, ha, ih]
    · simp [List.filter_cons, ha, ih]

theorem alistUpd_absorb {α : Type} (l : List (String × α)) (k : String)
    (v1 v2 : α) : alistUpd (alistUpd l k v1) k v2 = alistUpd l k v2 := by
  simp [alistUpd, List.filter_cons, filter_idem]

theorem requeueLoop_ok_or_error (now : Int)
    (entries : List (String × TaskRec)) :
    ∀ (s : CacheState) (count : Nat),
      requeueLoop now entries s count = Except.ok (count, s)
      ∨ ∃ m, requeueLoop now entries s count = Except.error m := by
  induction entries with
  | nil => intro s count; exact Or.inl rfl
  | cons e rest ih =>
    intro s count
    obtain ⟨key, r⟩ := e
    by_cases hr : r = ({} : TaskRec)
    · simpa [requeueLoop, hr] using ih s count
    · exact Or.inr ⟨attrErrMsg, by simp [requeueLoop, hr, decodeHash]⟩

theorem requeue_noop (s : CacheState) (now : Int) :
    requeue_stale_tasks s now = (0, s) := by
  rcases requeueLoop_ok_or_error now s.tasks s 0 with h | ⟨m, h⟩ <;>
    simp [requeue_stale_tasks, h]

theorem get_next_task_eq (s : CacheState) :
    get_next_task s = (none, (popNextId s).2) := by
  unfold get_next_task
  by_cases h : pyTruthy (popNextId s).1 <;> simp [h, strDecode]

theorem popNextId_tasks (s : CacheState) : (popNextId s).2.tasks = s.tasks := by
  unfold popNextId
  by_cases h : pyTruthy s.high.getLast? <;> simp [h]

theorem truthy_getLast (l : List String) (h1 : l ≠ []) (h2 : "" ∉ l) :
    pyTruthy l.getLast? = true := by
  rcases List.eq_nil_or_concat l with rfl | ⟨l2, b, rfl⟩
  · exact absurd rfl h1
  · rw [List.concat_eq_append] at h2 ⊢
    rw [List.getLast?_concat]
    have hmem : b ∈ l2 ++ [b] :=
      List.mem_append_right l2 (List.mem_singleton_self b)
    have hb : b ≠ "" := by
      intro he
      subst he
      exact h2 hmem
    simp [pyTruthy, hb]

theorem popNextId_high (s : CacheState)
    (h : pyTruthy s.high.getLast? = true) :
    popNextId s = (s.high.getLast?, { s with high := s.high.dropLast }) := by
  simp [popNextId, h]

theorem popNextId_low (s : CacheState) (h : s.high = []) :
    popNextId s
      = (s.low.getLast?, { s with high := [], low := s.low.dropLast }) := by
  simp [popNextId, h, pyTruthy]

/-- Claim C1: strict priority dequeue.  For every queue state whose high lane
holds real (non-empty-string) ids, get_next_task pops the high lane and leaves
the low lane untouched whenever the high lane is non-empty, and pops the low
lane only when the high lane is empty; so no low-lane id is removed (and a
fortiori none could be returned) while a high-lane id is still queued. -/
theorem c1_strict_priority_dequeue (s : CacheState) :
    ("" ∉ s.high → s.high ≠ [] →
      (get_next_task s).2.low = s.low ∧
      (get_next_task s).2.high = s.high.dropLast ∧
      (popNextId s).1 = s.high.getLast?) ∧
    (s.high = [] →
      (get_next_task s).2.low = s.low.dropLast ∧
      (popNextId s).1 = s.low.getLast?) := by
  constructor
  · intro h2 h1
    have ht := truthy_getLast s.high h1 h2
    rw [get_next_task_eq, popNextId_high s ht]
    exact ⟨rfl, rfl, rfl⟩
  · intro h
    rw [get_next_task_eq, popNextId_low s h]
    exact ⟨rfl, rfl⟩

/-- Claim C1 witness: after enqueuing five LOW ids and one HIGH id, the first
get_next_task removes the HIGH id and leaves the whole low lane in place. -/
theorem c1_strict_priority_dequeue_w :
    (get_next_task c1State).2.low = c1State.low ∧
    (get_next_task c1State).2.high = c1State.high.dropLast ∧
    (popNextId c1State).1 = c1State.high.getLast? :=
  (c1_strict_priority_dequeue c1State).1 (by decide) (by decide)

/-- Claim C9: because decode_responses=True makes rpop return a str, the
task_id.decode() call at line 169 raises AttributeError, the handler returns
None, and the popped id is gone: get_next_task always returns None, never
touches the task records, and still removes exactly one id from the lanes
whenever some lane is non-empty. -/
theorem c9_dequeue_swallows (s : CacheState) :
    (get_next_task s).1 = none ∧
    (get_next_task s).2.tasks = s.tasks ∧
    ("" ∉ s.high → "" ∉ s.low → s.high.length + s.low.length ≠ 0 →
      (get_next_task s).2.high.length + (get_next_task s).2.low.length + 1
        = s.high.length + s.low.length) := by
  refine ⟨by rw [get_next_task_eq],
    by rw [get_next_task_eq]; exact popNextId_tasks s, ?_⟩
  intro hh hl hne
  rw [get_next_task_eq]
  by_cases h : s.high = []
  · have hlow : s.low ≠ [] := by
      intro h0
      apply hne
      rw [h, h0]
      rfl
    rw [popNextId_low s h]
    have hd := List.length_dropLast s.low
    have hpos : 0 < s.low.length := List.length_pos.mpr hlow
    simp only [h]
    simp
    omega
  · have ht := truthy_getLast s.high h hh
    rw [popNextId_high s ht]
    have hd := List.length_dropLast s.high
    have hpos : 0 < s.high.length := List.length_pos.mpr h
    simp
    omega

/-- Claim C9 witness: with one id in each lane, get_next_task returns None and
one id has been removed. -/
theorem c9_dequeue_swallows_w :
    (get_next_task c9State).1 = none ∧
    (get_next_task c9State).2.high.length + (get_next_task c9State).2.low.length
        + 1
      = c9State.high.length + c9State.low.length := by
  have h := c9_dequeue_swallows c9State
  exact ⟨h.1, h.2.2 (by decide) (by decide) (by decide)⟩

/-- Claim C4: FIFO within a lane, for both priority lanes.  If tasks t1, ...,
tn were enqueued in that order into the high lane (lpush leaves the lane as the
reversed list; the low lane may hold anything, since high is always popped
first), or into the low lane with the high lane empty, then n successive
get_next_task calls remove the ids in exactly the enqueue order (the removed
ids themselves are swallowed by the decode failure, see claim C9, so the
returned id sequence is empty and trivially in order; FIFO holds for the
removal order). -/
theorem c4_fifo_within_lane :
    ∀ (ts : List String) (s : CacheState), "" ∉ ts →
    (s.high = ts.reverse → drainIds ts.length s = ts) ∧
    (s.high = [] → s.low = ts.reverse → drainIds ts.length s = ts) := by
  intro ts
  induction ts with
  | nil => intro s _; exact ⟨fun _ => rfl, fun _ _ => rfl⟩
  | cons a rest ih =>
    intro s hmem
    have ha : a ≠ "" := fun h => hmem (h ▸ List.mem_cons_self a rest)
    have hrest : "" ∉ rest := fun hm => hmem (List.mem_cons_of_mem a hm)
    constructor
    · intro hhigh
      have hhigh2 : s.high = rest.reverse ++ [a] := by
        rw [hhigh, List.reverse_cons]
      have htruthy : pyTruthy s.high.getLast? = true := by
        rw [hhigh2, List.getLast?_concat]
        simp [pyTruthy, ha]
      have hpop : popNextId s
          = (some a, { s with high := rest.reverse }) := by
        rw [popNextId_high s htruthy, hhigh2, List.getLast?_concat,
          List.dropLast_concat]
      show drainIds (rest.length + 1) s = a :: rest
      rw [drainIds, hpop]
      simp only [get_next_task_eq, hpop]
      have ihs := (ih { s with high := rest.reverse } hrest).1 rfl
      rw [ihs]
    · intro hhigh hlow
      have hlow2 : s.low = rest.reverse ++ [a] := by
        rw [hlow, List.reverse_cons]
      have hpop : popNextId s
          = (some a, { s with high := [], low := rest.reverse }) := by
        rw [popNextId_low s hhigh, hlow2, List.getLast?_concat,
          List.dropLast_concat]
      show drainIds (rest.length + 1) s = a :: rest
      rw [drainIds, hpop]
      simp only [get_next_task_eq, hpop]
      have ihs := (ih { s with high := [], low := rest.reverse } hrest).2
        rfl rfl
      rw [ihs]

/-- Claim C4 witness: draining the high lane left by enqueuing l1 then l2 into
it, and likewise the low lane, yields l1 before l2 in both lanes. -/
theorem c4_fifo_within_lane_w :
    drainIds 2 c4HighState = ["l1", "l2"] ∧
    drainIds 2 c4State = ["l1", "l2"] :=
  ⟨(c4_fifo_within_lane ["l1", "l2"] c4HighState (by decide)).1 (by decide),
   (c4_fifo_within_lane ["l1", "l2"] c4State (by decide)).2 rfl (by decide)⟩

/-- Claim C2 counterexample: the reachable operation sequence enqueue,
set_task_error, set_task_result moves the status of the same task from FAILED
to COMPLETED.  A terminal status is overwritten by the other terminal status,
which is neither a forward edge of PENDING to PROCESSING to COMPLETED or FAILED
nor the reclaimer backward edge, so the claimed forward-only discipline is
false as stated. -/
theorem c2_status_backward_cex :
    statusOf (set_task_error
        (enqueue_task emptyCache "g" "d" 100 0 "ab").2
        (enqueue_task emptyCache "g" "d" 100 0 "ab").1 "boom" 1)
        (enqueue_task emptyCache "g" "d" 100 0 "ab").1
      = some TaskStatus.FAILED ∧
    statusOf (set_task_result (set_task_error
        (enqueue_task emptyCache "g" "d" 100 0 "ab").2
        (enqueue_task emptyCache "g" "d" 100 0 "ab").1 "boom" 1)
        (enqueue_task emptyCache "g" "d" 100 0 "ab").1 "42" 2)
        (enqueue_task emptyCache "g" "d" 100 0 "ab").1
      = some TaskStatus.COMPLETED := by decide

/-- Claim C2 amended: over the five operations, a task status is never moved to
PROCESSING and a PENDING status is only given to a fresh record: every
operation either leaves a given task status unchanged, overwrites it with
COMPLETED (set_task_result) or FAILED (set_task_error) unconditionally — so
the two terminal statuses can replace one another and PROCESSING or PENDING can
jump straight to a terminal status — or creates a fresh PENDING record
(enqueue_task with a non-colliding id).  In particular no operation moves a
COMPLETED or FAILED task back to PENDING or PROCESSING; the reclaimer backward
edge never fires because the sweep aborts on its decode error. -/
theorem c2_status_forward_amended (s : CacheState) (now : Int) (op : Op)
    (id : String)
    (hfresh : ∀ t d p suf, op = Op.enq t d p suf →
      alistGet s.tasks (mkTaskId t now suf) = none) :
    statusOf (applyOp s now op) id = statusOf s id
    ∨ statusOf (applyOp s now op) id = some TaskStatus.COMPLETED
    ∨ statusOf (applyOp s now op) id = some TaskStatus.FAILED
    ∨ (statusOf s id = none
        ∧ statusOf (applyOp s now op) id = some TaskStatus.PENDING) := by
  cases op with
  | requeue =>
    left
    simp [applyOp, requeue_noop]
  | getNext =>
    left
    simp [applyOp, statusOf, get_next_task_eq, popNextId_tasks]
  | setResult tid r =>
    by_cases h : id = tid
    · subst h
      right; left
      simp [applyOp, set_task_result, statusOf, alistGet_upd_self]
    · left
      simp [applyOp, set_task_result, statusOf, alistGet_upd_ne _ _ _ _ h]
  | setError tid e =>
    by_cases h : id = tid
    · subst h
      right; right; left
      simp [applyOp, set_task_error, statusOf, alistGet_upd_self]
    · left
      simp [applyOp, set_task_error, statusOf, alistGet_upd_ne _ _ _ _ h]
  | enq t d p suf =>
    have hf := hfresh t d p suf rfl
    by_cases h : id = mkTaskId t now suf
    · subst h
      right; right; right
      refine ⟨by simp [statusOf, hf], ?_⟩
      unfold applyOp enqueue_task
      by_cases hp : p = TaskPriority.HIGH <;>
        simp [hp, statusOf, alistGet_upd_self]
    · left
      unfold applyOp enqueue_task
      by_cases hp : p = TaskPriority.HIGH <;>
        simp [hp, statusOf, alistGet_upd_ne _ _ _ _ h]

/-- Claim C2 amended witness: set_task_result on a fresh id in the empty state
satisfies the amended transition discipline. -/
theorem c2_status_forward_amended_w :
    statusOf (applyOp emptyCache 0 (Op.setResult "x" "42")) "x"
        = statusOf emptyCache "x"
    ∨ statusOf (applyOp emptyCache 0 (Op.setResult "x" "42")) "x"
        = some TaskStatus.COMPLETED
    ∨ statusOf (applyOp emptyCache 0 (Op.setResult "x" "42")) "x"
        = some TaskStatus.FAILED
    ∨ (statusOf emptyCache "x" = none
        ∧ statusOf (applyOp emptyCache 0 (Op.setResult "x" "42")) "x"
          = some TaskStatus.PENDING) :=
  c2_status_forward_amended emptyCache 0 (Op.setResult "x" "42") "x"
    (fun _ _ _ _ h => Op.noConfusion h)

/-- Claim C3 evaluation at the failing input: a task stuck in PROCESSING whose
record was created 400 seconds ago (well past the 300 second threshold, by
either measure, and with no processing-start field in the record at all) is
not reclaimed: the sweep aborts on the decode error at line 212, returns 0,
and changes nothing — and the age logic it guards (lines 216-220) reads
created_at, not a processing-start marker. -/
theorem c3_stale_sweep_inert :
    statusOf c3State "t1" = some TaskStatus.PROCESSING ∧
    (500 : Int) - 100 > 300 ∧
    requeue_stale_tasks c3State 500 = (0, c3State) := by decide

/-- Claim C5: reclamation idempotence.  Running the sweep twice re-enqueues any
id at most once more than it already appears (in fact never: the sweep is a
no-op, see claim C3), and the sweep is a no-op on a task whose status has left
PROCESSING. -/
theorem c5_reclaim_idempotent (s : CacheState) (now1 now2 : Int)
    (id : String) :
    laneCount (requeue_stale_tasks (requeue_stale_tasks s now1).2 now2).2 id
      ≤ laneCount s id + 1
    ∧ (statusOf s id ≠ some TaskStatus.PROCESSING →
        (requeue_stale_tasks s now1).2 = s) := by
  constructor
  · simp [requeue_noop]
  · intro _
    simp [requeue_noop]

/-- Claim C5 witness: on the empty state the double sweep adds no occurrence of
the id and the single sweep is a no-op. -/
theorem c5_reclaim_idempotent_w :
    laneCount (requeue_stale_tasks (requeue_stale_tasks emptyCache 0).2 0).2 "x"
      ≤ laneCount emptyCache "x" + 1
    ∧ (requeue_stale_tasks emptyCache 0).2 = emptyCache := by
  have h := c5_reclaim_idempotent emptyCache 0 0 "x"
  exact ⟨h.1, h.2 (by decide)⟩

/-- Claim C6 evaluation at the failing inputs: on a COMPLETED task with a
stored result, and on a FAILED task with a stored error, wait_for_task_result
raises the AttributeError from the decode at line 298 (re-raised by the handler
at lines 320-322) instead of returning the stored result or raising the stored
error; only a task id with no record at all reaches the TimeoutError of line
318, so a timeout is also not distinguishable from a never-existing id. -/
theorem c6_wait_decode_bug :
    wait_for_task_result c6Completed "t1" 300 = WaitOutcome.pyError attrErrMsg ∧
    wait_for_task_result c6Failed "t2" 300 = WaitOutcome.pyError attrErrMsg ∧
    wait_for_task_result emptyCache "ghost" 3 = WaitOutcome.timedOut ∧
    attrErrMsg ≠ "boom" ∧
    alistGet c6Completed.strings "result:t1" = some "42" := by decide

/-- Claim C7: idempotence of completion.  Calling set_task_result twice with
the same id and the same result leaves the store in exactly the state of the
single (last) call: the stored result, status, result_key and completed_at are
all overwritten with the same values. -/
theorem c7_mark_completed_idem (s : CacheState) (task_id result : String)
    (t1 t2 : Int) :
    set_task_result (set_task_result s task_id result t1) task_id result t2
      = set_task_result s task_id result t2 := by
  cases s with
  | mk tasks strings procs high low =>
    simp [set_task_result, alistUpd_absorb, alistGet_upd_self]

/-- Claim C8: leader lease (operation modelled from the spec on top of the
embedded RedisCache.set primitive, see tryAcquireOrRenew).  If the lease name
is free at time t, A acquires it; B racing at the same instant fails and
changes nothing; B keeps failing at any t2 before the deadline t + ttl while A
can renew; once t + ttl has passed without renewal, B succeeds. -/
theorem c8_leader_lease (kv : KV) (leaseName a b : String) (ttl t t2 : Int)
    (hfree : kvGet kv leaseName t = none) (hab : a ≠ b) (httl : 0 < ttl)
    (_hle : t ≤ t2) :
    (tryAcquireOrRenew kv leaseName a ttl t).1 = true ∧
    (tryAcquireOrRenew (tryAcquireOrRenew kv leaseName a ttl t).2
        leaseName b ttl t).1 = false ∧
    (t2 < t + ttl →
      (tryAcquireOrRenew (tryAcquireOrRenew kv leaseName a ttl t).2
          leaseName b ttl t2).1 = false) ∧
    (t2 < t + ttl →
      (tryAcquireOrRenew (tryAcquireOrRenew kv leaseName a ttl t).2
          leaseName a ttl t2).1 = true) ∧
    (t + ttl ≤ t2 →
      (tryAcquireOrRenew (tryAcquireOrRenew kv leaseName a ttl t).2
          leaseName b ttl t2).1 = true) := by
  have hacq : tryAcquireOrRenew kv leaseName a ttl t
      = (true,
         { entries := alistUpd kv.entries leaseName (a, some (t + ttl)) }) := by
    simp [tryAcquireOrRenew, RedisCache.set, hfree]
  have hget : ∀ u : Int,
      kvGet { entries := alistUpd kv.entries leaseName (a, some (t + ttl)) }
        leaseName u
      = if u < t + ttl then some a else none := by
    intro u
    simp [kvGet, alistGet_upd_self]
  rw [hacq]
  refine ⟨rfl, ?_, ?_, ?_, ?_⟩
  · have h2 : kvGet
        { entries := alistUpd kv.entries leaseName (a, some (t + ttl)) }
        leaseName t = some a := by
      rw [hget, if_pos (by omega : t < t + ttl)]
    simp [tryAcquireOrRenew, RedisCache.set, h2, hab]
  · intro hlt
    have h2 : kvGet
        { entries := alistUpd kv.entries leaseName (a, some (t + ttl)) }
        leaseName t2 = some a := by
      rw [hget, if_pos hlt]
    simp [tryAcquireOrRenew, RedisCache.set, h2, hab]
  · intro hlt
    have h2 : kvGet
        { entries := alistUpd kv.entries leaseName (a, some (t + ttl)) }
        leaseName t2 = some a := by
      rw [hget, if_pos hlt]
    simp [tryAcquireOrRenew, RedisCache.set, h2]
  · intro hge
    have h2 : kvGet
        { entries := alistUpd kv.entries leaseName (a, some (t + ttl)) }
        leaseName t2 = none := by
      rw [hget, if_neg (by omega : ¬ t2 < t + ttl)]
    simp [tryAcquireOrRenew, RedisCache.set, h2]

/-- Claim C8 witness: with ttl 30 starting from the empty store at time 0, A
acquires, B fails at the same instant, and B succeeds at time 30. -/
theorem c8_leader_lease_w :
    (tryAcquireOrRenew kv0 "leader" "A" 30 0).1 = true ∧
    (tryAcquireOrRenew (tryAcquireOrRenew kv0 "leader" "A" 30 0).2
        "leader" "B" 30 0).1 = false ∧
    (tryAcquireOrRenew (tryAcquireOrRenew kv0 "leader" "A" 30 0).2
        "leader" "B" 30 30).1 = true := by
  have h := c8_leader_lease kv0 "leader" "A" "B" 30 0 30 (by decide) (by decide)
    (by decide) (by decide)
  exact ⟨h.1, h.2.1, h.2.2.2.2 (by decide)⟩

/-- Claim C10: the task record written by enqueue_task is a Redis hash, but
get_task_status, complete_task and fail_task read it with a string GET, which
raises WRONGTYPE; so for any state in which the id has a hash record,
get_task_status returns None (exactly as for an id that never existed) and
complete_task and fail_task return False without changing anything. -/
theorem c10_hash_record_unreadable (s : CacheState)
    (task_id result err : String) (now : Int) :
    ((alistGet s.tasks task_id).isSome = true →
      get_task_status s task_id = none ∧
      complete_task s task_id result now = (false, s) ∧
      fail_task s task_id err now = (false, s)) ∧
    (alistGet s.tasks task_id = none →
      alistGet s.strings ("task:" ++ task_id) = none →
      get_task_status s task_id = none) := by
  constructor
  · intro h
    refine ⟨?_, ?_, ?_⟩ <;>
      simp [get_task_status, complete_task, fail_task, clientGetTaskKey, h]
  · intro h1 h2
    simp [get_task_status, clientGetTaskKey, h1, h2]

/-- Claim C10 witness: for the id just created by enqueue_task, get_task_status
yields None and complete_task and fail_task yield False with the state
untouched. -/
theorem c10_hash_record_unreadable_w :
    get_task_status c10State
        (enqueue_task emptyCache "get_best_price" "d" 100 0 "ab").1 = none ∧
    complete_task c10State
        (enqueue_task emptyCache "get_best_price" "d" 100 0 "ab").1 "42" 1
      = (false, c10State) ∧
    fail_task c10State
        (enqueue_task emptyCache "get_best_price" "d" 100 0 "ab").1 "boom" 1
      = (false, c10State) :=
  (c10_hash_record_unreadable c10State
    (enqueue_task emptyCache "get_best_price" "d" 100 0 "ab").1
    "42" "boom" 1).1 (by decide)
